import Mathlib

/-!
# Theme provider and script loader of the blog

A shallow embedding of `src/components/ThemeProvider.js` (palette tables, CSS variable
derivation, theme state and its reaction) and of the `useScript` hook of
`src/posts/published/graphs-are-everywhere/DirectedGraph.js`.

JavaScript objects are string-keyed association lists in insertion order, the browser
store and the document root are explicit state, and an exception is an explicit result.
-/

namespace Blog

/-! ## JavaScript values and objects -/

/-- The JavaScript values the embedded code can hold in a variable: `undefined`, a string,
or a member inherited from `Object.prototype` (a built-in function or object, named by the
property that reaches it). -/
inductive JSVal where
  | undefined
  | str (s : String)
  | native (name : String)
  deriving DecidableEq, Repr

/-- The errors the embedded code can raise: a `TypeError` of the language itself, or an
exception of the browser store (security error, quota exceeded, store not defined). -/
inductive JSError where
  | typeError
  | storageError
  deriving DecidableEq, Repr

/-- Property names every plain object inherits from `Object.prototype`. -/
def objectPrototypeNames : List String :=
  ["constructor", "__defineGetter__", "__defineSetter__", "hasOwnProperty",
   "__lookupGetter__", "__lookupSetter__", "isPrototypeOf", "propertyIsEnumerable",
   "toString", "valueOf", "__proto__", "toLocaleString"]

/-- String conversion of an inherited member (the rendering of V8): the prototype object
itself for `__proto__`, a built-in function otherwise. -/
def nativeText (name : String) : String :=
  if name = "__proto__" then "[object Object]"
  else if name = "constructor" then "function Object() \x7b [native code] \x7d"
  else "function " ++ name ++ "() \x7b [native code] \x7d"

/-- The conversion `ToString`, as applied by a template literal, by a property access
`obj[value]`, by `setAttribute` and by `setItem`. -/
def JSVal.toJSString : JSVal → String
  | .undefined => "undefined"
  | .str s => s
  | .native name => nativeText name

/-- Own enumerable properties of an object, in insertion order. -/
abbrev JSObject (α : Type) := List (String × α)

/-- Writing a property as an object literal or a spread does: an existing key keeps its
position and takes the new value, a new key goes to the end. -/
def setProp {α : Type} : JSObject α → String → α → JSObject α
  | [], k, v => [(k, v)]
  | (k0, v0) :: rest, k, v =>
    if k0 = k then (k0, v) :: rest else (k0, v0) :: setProp rest k v

/-- The read `obj[key]` on an object whose own properties are strings: the own value,
otherwise the inherited member, otherwise `undefined`. -/
def getProp (obj : JSObject String) (key : String) : JSVal :=
  match obj.lookup key with
  | some v => .str v
  | none => if key ∈ objectPrototypeNames then .native key else .undefined

/-! ## Palette tables -/

def LIGHT_COLORS : JSObject String :=
  [("background", "hsl(0, 0%, 100%)"),
   ("text", "hsl(0, 0%, 10%)"),
   ("accent", "hsl(197, 60%, 50%)"),
   ("accentDark", "hsl(197, 60%, 40%)"),
   ("accentDarker", "hsl(197, 69%, 30%)"),
   ("accentExtraDark", "hsl(197, 78%, 19%)"),
   ("accentLight", "hsl(197, 60%, 60%)"),
   ("accentExtraLight", "hsl(197, 50%, 90%)"),
   ("contra", "hsl(347, 87%, 60%)"),
   ("contraLight", "hsl(347, 87%, 65%)"),
   ("offset", "hsl(190, 23%, 95%)"),
   ("offsetMore", "hsl(197, 12%, 75%)"),
   ("error", "hsl(347, 71%, 54%)")]

def DARK_COLORS : JSObject String :=
  [("background", "hsl(195, 60%, 4%)"),
   ("text", "hsl(0, 0%, 100%)"),
   ("accent", "hsl(197, 60%, 50%)"),
   ("accentDark", "hsl(197, 60%, 40%)"),
   ("accentDarker", "hsl(197, 69%, 30%)"),
   ("accentExtraDark", "hsl(197, 78%, 19%)"),
   ("accentLight", "hsl(197, 60%, 60%)"),
   ("contra", "hsl(347, 87%, 60%)"),
   ("contraLight", "hsl(347, 87%, 65%)"),
   ("offset", "hsl(197, 61%, 14%)"),
   ("offsetMore", "hsl(197, 61%, 28%)"),
   ("error", "hsl(347, 71%, 54%)")]

/-! ## CSS variable derivation -/

def makeDefaultCSSVars (colors : JSObject String) : JSObject JSVal :=
  [("--colors-background", getProp colors "background"),
   ("--colors-text", getProp colors "text"),
   ("--colors-accent", getProp colors "accent"),
   ("--colors-accentDark", getProp colors "accentDark"),
   ("--colors-accentDarker", getProp colors "accentDarker"),
   ("--colors-accentExtraDark", getProp colors "accentExtraDark"),
   ("--colors-accentLight", getProp colors "accentLight"),
   ("--colors-accentExtraLight", getProp colors "accentExtraLight"),
   ("--colors-contra", getProp colors "contra"),
   ("--colors-contraLight", getProp colors "contraLight"),
   ("--colors-offset", getProp colors "offset"),
   ("--colors-offsetMore", getProp colors "offsetMore"),
   ("--colors-error", getProp colors "error"),
   ("--colors-text-on-accent", .str "var(--colors-background)"),
   ("--fonts-catamaran", .str "Catamaran, sans-serif"),
   ("--components-announcementBanner-background", .str "var(--colors-accent)"),
   ("--components-announcementBanner-text", .str "var(--colors-background)"),
   ("--components-announcementBanner-links-text", .str "#f2f2f2"),
   ("--components-announcementBanner-links-hover-text", .str "var(--colors-background)"),
   ("--components-beard-strokes-button-bg", .str "var(--colors-accentExtraDark)"),
   ("--components-beard-strokes-button-bg-hover", .str "var(--colors-accentDarker)"),
   ("--components-beard-strokes-fill-default", .str "var(--colors-offsetMore)"),
   ("--components-beard-strokes-fill-disabled", .str "var(--colors-offset)"),
   ("--components-beard-strokes-fill-hover", .str "var(--colors-background)"),
   ("--components-beard-strokes-fill-nonzero", .str "var(--colors-background)"),
   ("--components-button-background", .str "var(--colors-accent)"),
   ("--components-button-text", .str "var(--colors-background)"),
   ("--components-button-hover-background", .str "var(--colors-accentLight)"),
   ("--components-button-hover-text", .str "var(--colors-background)"),
   ("--components-button-active-background", .str "var(--colors-background)"),
   ("--components-button-active-text", .str "var(--colors-text)"),
   ("--components-button-shadow-color", .str "var(--colors-offsetMore)"),
   ("--components-footer-background", .str "var(--colors-text)"),
   ("--components-footer-text", .str "var(--colors-background)"),
   ("--components-inputs-background", .str "var(--colors-background)"),
   ("--components-inputs-text", .str "var(--colors-text)"),
   ("--components-lightBulb-fill", .str "var(--colors-text)"),
   ("--components-newsletterCTA-background", .str "var(--colors-accent)"),
   ("--components-newsletterCTA-text", .str "var(--colors-background)"),
   ("--components-newsletterCTA-errorBox-background", .str "var(--colors-error)"),
   ("--components-newsletterCTA-errorBox-text", .str "var(--colors-background)"),
   ("--components-newsletterCTA-inputs-background", .str "var(--colors-background)"),
   ("--components-newsletterCTA-inputs-text", .str "var(--colors-text)"),
   ("--components-newsletterCTA-inputs-placeholderText", .str "var(--colors-offsetMore)"),
   ("--components-newsletterCTA-submitButton-background", .str "var(--colors-offset)"),
   ("--components-newsletterCTA-submitButton-text", .str "var(--colors-accent)"),
   ("--components-newsletterCTA-submitButton-hover-background",
     .str "var(--colors-background)"),
   ("--components-newsletterCTA-submitButton-hover-text", .str "var(--colors-accent)"),
   ("--components-newsletterCTA-successBox-background", .str "var(--colors-offset)"),
   ("--components-newsletterCTA-successBox-text", .str "var(--colors-text)"),
   ("--components-pagination-normal-background", .str "var(--colors-accent)"),
   ("--components-pagination-normal-text", .str "var(--colors-background)"),
   ("--components-pagination-active-background", .str "var(--colors-offset)"),
   ("--components-pagination-active-text", .str "var(--colors-accent)"),
   ("--components-share-background", .str "var(--colors-offset)"),
   ("--components-share-highlight", .str "var(--colors-accent)"),
   ("--components-share-hover-background", .str "var(--colors-offsetMore)"),
   ("--tags-code", .str "var(--colors-offset)")]

/-- The properties written after the spread in the literal of `LIGHT_VARS`. -/
def LIGHT_PATCH : JSObject JSVal :=
  [("--components-share-hover-background", .str "var(--colors-accentExtraLight)")]

/-- The properties written after the spread in the literal of `DARK_VARS`. -/
def DARK_PATCH : JSObject JSVal :=
  [("--colors-text-on-accent", .str "var(--colors-text)"),
   ("--components-announcementBanner-text", .str "var(--colors-text)"),
   ("--components-announcementBanner-links-hover-text", .str "var(--colors-text)"),
   ("--components-beard-strokes-button-bg", .str "var(--colors-accentExtraDark)"),
   ("--components-beard-strokes-button-bg-hover", .str "var(--colors-accentDarker)"),
   ("--components-beard-strokes-fill-default", .str "hsl(197, 12%, 80%)"),
   ("--components-beard-strokes-fill-disabled", .str "hsl(197, 12%, 65%)"),
   ("--components-beard-strokes-fill-hover", .str "var(--colors-text)"),
   ("--components-beard-strokes-fill-nonzero", .str "var(--colors-text)"),
   ("--components-button-text", .str "var(--colors-text)"),
   ("--components-button-hover-text", .str "var(--colors-text)"),
   ("--components-footer-background", .str "hsl(195, 30%, 8%)"),
   ("--components-footer-text", .str "var(--colors-text)"),
   ("--components-newsletterCTA-text", .str "var(--colors-text)"),
   ("--components-newsletterCTA-errorBox-text", .str "var(--colors-text)"),
   ("--components-newsletterCTA-inputs-background", .str "var(--colors-text)"),
   ("--components-newsletterCTA-inputs-text", .str "var(--colors-background)"),
   ("--components-newsletterCTA-submitButton-background", .str "#f2f2f2"),
   ("--components-newsletterCTA-submitButton-hover-background", .str "var(--colors-text)"),
   ("--components-pagination-normal-text", .str "var(--colors-text)"),
   ("--components-pagination-active-text", .str "var(--colors-text)")]

/-- An object literal `{ ...base, k1: v1, k2: v2, ... }`: the spread copies the own
properties of `base` in order, then each written property is set in turn. -/
def spreadThen {α : Type} (base patch : JSObject α) : JSObject α :=
  patch.foldl (fun o kv => setProp o kv.1 kv.2) base

def LIGHT_VARS : JSObject JSVal :=
  spreadThen (makeDefaultCSSVars LIGHT_COLORS) LIGHT_PATCH

def DARK_VARS : JSObject JSVal :=
  spreadThen (makeDefaultCSSVars DARK_COLORS) DARK_PATCH

def makeCSSVarsString (obj : JSObject JSVal) : String :=
  obj.foldl (fun acc kv => acc ++ (kv.1 ++ ":" ++ kv.2.toJSString ++ ";")) ""

def THEME_TO_CSS_VARS : JSObject (JSObject JSVal) :=
  [("dark", DARK_VARS), ("light", LIGHT_VARS)]

/-- The characters matched by `\s` in a JavaScript regular expression. -/
def isJSWhitespace (c : Char) : Bool :=
  c.toNat ∈ [0x09, 0x0A, 0x0B, 0x0C, 0x0D, 0x20, 0xA0, 0x1680, 0x2028, 0x2029, 0x202F,
             0x205F, 0x3000, 0xFEFF]
    || (0x2000 ≤ c.toNat && c.toNat ≤ 0x200A)

/-- The call `s.replace(/\s/g, '')`. -/
def removeWhitespace (s : String) : String :=
  String.mk (s.data.filter (fun c => !isJSWhitespace c))

/-- The function `getCSSVars(theme = 'light')`; an omitted argument is `undefined`, and an
`undefined` argument takes the default. `THEME_TO_CSS_VARS[theme]` is an own table, or an
inherited member (which has no enumerable own property, so `Object.entries` is empty), or
`undefined`, on which `Object.entries` raises a `TypeError`. -/
def getCSSVars (theme : JSVal) : Except JSError String :=
  let theme := if theme = .undefined then .str "light" else theme
  let key := theme.toJSString
  match THEME_TO_CSS_VARS.lookup key with
  | some vars => .ok (removeWhitespace (makeCSSVarsString vars))
  | none =>
    if key ∈ objectPrototypeNames then .ok (removeWhitespace (makeCSSVarsString []))
    else .error .typeError

/-! ## Theme state -/

def DEFAULT_THEME : String := "light"

def THEME_STORAGE_KEY : String := "kyleshevlin:theme"

def NEXT_THEME : JSObject String :=
  [("dark", "light"), ("light", "dark")]

/-- The browser store `localStorage`: its key/value pairs, and whether the environment
makes a read or a write raise (store not defined, access denied, quota exceeded). -/
structure Storage where
  items : JSObject String
  readThrows : Bool
  writeThrows : Bool
  deriving DecidableEq, Repr

/-- The method `localStorage.getItem(key)`; `none` is `null`. -/
def Storage.getItem (st : Storage) (key : String) : Except JSError (Option String) :=
  if st.readThrows then .error .storageError else .ok (st.items.lookup key)

/-- The method `localStorage.setItem(key, value)`; the value is converted to a string. -/
def Storage.setItem (st : Storage) (key : String) (value : JSVal) : Except JSError Storage :=
  if st.writeThrows then .error .storageError
  else .ok { st with items := setProp st.items key value.toJSString }

/-- The function `getInitialTheme`: the `try` body on the result of the read, the `catch`
branch on a raised error. `!themeName` holds for `null` and for the empty string. -/
def getInitialTheme (localStorage : Storage) : String :=
  match localStorage.getItem THEME_STORAGE_KEY with
  | .error _ => DEFAULT_THEME
  | .ok none => DEFAULT_THEME
  | .ok (some themeName) =>
    if themeName = "" then DEFAULT_THEME
    else if (NEXT_THEME.map Prod.fst).contains themeName then themeName
    else DEFAULT_THEME

/-- The state updater passed to `setTheme` by `rotateTheme`: `_theme => NEXT_THEME[_theme]`. -/
def rotateTheme (theme : JSVal) : JSVal :=
  getProp NEXT_THEME theme.toJSString

/-- The state the provider reads and writes: the React state `theme`, the `style` and
`class` attributes of `document.documentElement` (`none` when absent), and the store. -/
structure Page where
  theme : JSVal
  rootStyle : Option String
  rootClass : Option String
  localStorage : Storage
  deriving DecidableEq, Repr

/-- The body of the `useEffect` of `ThemeProvider`, statement by statement. The result is
the state reached and the error raised out of the effect, if any: nothing in the effect
catches, so a statement that raises ends it with the earlier writes in place. -/
def themeEffect (p : Page) : Page × Option JSError :=
  match getCSSVars p.theme with
  | .error e => (p, some e)
  | .ok css =>
    let p1 := { p with rootStyle := some css }
    let p2 := { p1 with rootClass := some p.theme.toJSString }
    match p2.localStorage.setItem THEME_STORAGE_KEY p.theme with
    | .error e => (p2, some e)
    | .ok st => ({ p2 with localStorage := st }, none)

/-- First render of `ThemeProvider` over a document and a store: `useState(getInitialTheme)`. -/
def mount (style cls : Option String) (st : Storage) : Page :=
  { theme := .str (getInitialTheme st), rootStyle := style, rootClass := cls,
    localStorage := st }

/-- First render followed by its effect. -/
def mountAndReact (style cls : Option String) (st : Storage) : Page × Option JSError :=
  themeEffect (mount style cls st)

/-- A call of `rotateTheme` followed by the effect, which has `[theme]` as dependencies and
so runs only when the state changed. -/
def rotateAndReact (p : Page) : Page × Option JSError :=
  let q := { p with theme := rotateTheme p.theme }
  if q.theme = p.theme then (q, none) else themeEffect q

/-! ## Script loader -/

/-- A script element made by `document.createElement`: its identity and the `url` its
handlers close over (also its `src`). -/
structure ScriptElement where
  id : Nat
  url : String
  deriving DecidableEq, Repr

/-- The callbacks `useScript` takes. -/
inductive Callback where
  | onCreate
  | onError
  | onLoad
  deriving DecidableEq, Repr

/-- The state `useScript` reads and writes: the module object `scriptCache`, the script
children of `document.body`, the React state `isReady`, the callbacks invoked so far and the
number of elements created so far. -/
structure ScriptState where
  scriptCache : JSObject String
  body : List ScriptElement
  isReady : Bool
  calls : List Callback
  created : Nat
  deriving DecidableEq, Repr

/-- The assignment `obj[key] = value` on a plain object: `__proto__` is the inherited
accessor, whose setter ignores a string; any other key becomes an own property. -/
def assignProp (obj : JSObject String) (key value : String) : JSObject String :=
  if key = "__proto__" then obj else setProp obj key value

/-- The body of the `useEffect` of `useScript`. The result is the state reached and the
element the returned cleanup removes (`none` on the early return). -/
def useScriptEffect (url : String) (s : ScriptState) : ScriptState × Option ScriptElement :=
  if getProp s.scriptCache url = .str "LOADED" then
    ({ s with isReady := true }, none)
  else
    let script : ScriptElement := { id := s.created, url := url }
    ({ s with created := s.created + 1, calls := s.calls ++ [.onCreate],
              body := s.body ++ [script] }, some script)

/-- The handler `script.onerror`. -/
def scriptOnError (_script : ScriptElement) (s : ScriptState) : ScriptState :=
  { s with calls := s.calls ++ [.onError] }

/-- The handler `script.onload`. -/
def scriptOnLoad (script : ScriptElement) (s : ScriptState) : ScriptState :=
  { s with scriptCache := assignProp s.scriptCache script.url "LOADED", isReady := true,
           calls := s.calls ++ [.onLoad] }

/-- The cleanup the effect returns: `document.body.removeChild(script)`. -/
def scriptCleanup (script : ScriptElement) (s : ScriptState) : ScriptState :=
  { s with body := s.body.erase script }

/-- A component using the hook mounts: `React.useState(false)` gives it an `isReady` of its
own, false; the module object `scriptCache` and the document body are those of the page. -/
def hookMount (s : ScriptState) : ScriptState :=
  { s with isReady := false }

/-- What can happen to the hook: a mount, an effect run for a url, the load or the failure
of a script element, the cleanup of an effect. -/
inductive ScriptEvent where
  | mount
  | effect (url : String)
  | load (script : ScriptElement)
  | error (script : ScriptElement)
  | cleanup (script : ScriptElement)
  deriving DecidableEq, Repr

/-- One step of the hook. -/
def scriptStep (s : ScriptState) : ScriptEvent → ScriptState
  | .mount => hookMount s
  | .effect url => (useScriptEffect url s).1
  | .load script => scriptOnLoad script s
  | .error script => scriptOnError script s
  | .cleanup script => scriptCleanup script s

/-- A finite run of the hook. -/
def scriptRun (s : ScriptState) (events : List ScriptEvent) : ScriptState :=
  events.foldl scriptStep s

/-! ## Reference expressions and serialization, as the specification words them -/

/-- The name a value of the form `var(--name)` refers to; `none` for any other value. -/
def refTarget (value : String) : Option String :=
  let cs := value.data
  if "var(--".data.isPrefixOf cs && cs.getLast? == some ')' then
    some (String.mk ((cs.drop 4).dropLast))
  else none

/-- Every string value of `vars` that is a reference names an entry of `vars` whose value
is a string that is not a reference. -/
def SingleHop (vars : JSObject JSVal) : Prop :=
  ∀ kv ∈ vars, ∀ s, kv.2 = .str s → ∀ x, refTarget s = some x →
    ∃ lit, vars.lookup x = some (.str lit) ∧ refTarget lit = none

/-- The check that decides `SingleHop` on a concrete table. -/
def singleHopCheck (vars : JSObject JSVal) : Bool :=
  vars.all fun kv =>
    match kv.2 with
    | .str s =>
      match refTarget s with
      | some x =>
        match vars.lookup x with
        | some (.str lit) => (refTarget lit).isNone
        | _ => false
      | none => true
    | _ => true

/-- The string of `name:value;` pairs in entry order with nothing between pairs, each value
rendered by `render`. -/
def serializePairs (render : JSVal → String) (obj : JSObject JSVal) : String :=
  obj.foldl (fun acc kv => acc ++ (kv.1 ++ ":" ++ render kv.2 ++ ";")) ""

instance instDecidableEqExcept {ε α : Type} [DecidableEq ε] [DecidableEq α] :
    DecidableEq (Except ε α)
  | .ok a, .ok b => if h : a = b then isTrue (by rw [h]) else isFalse (by simp [h])
  | .error a, .error b => if h : a = b then isTrue (by rw [h]) else isFalse (by simp [h])
  | .ok _, .error _ => isFalse (by simp)
  | .error _, .ok _ => isFalse (by simp)

/-- The d3 bundle `DirectedGraph` asks `useScript` for. -/
def d3Url : String := "https://cdnjs.cloudflare.com/ajax/libs/d3/5.11.0/d3.min.js"

/-- The page agrees with variant `v`: the state is `v`, the root class is the name of `v`,
the root style is `getCSSVars(v)`, and the store holds `v` under the theme key. -/
def Synced (p : Page) (v : String) : Prop :=
  p.theme = .str v ∧ p.rootClass = some v ∧
    (∃ css, getCSSVars (.str v) = .ok css ∧ p.rootStyle = some css) ∧
    p.localStorage.items.lookup THEME_STORAGE_KEY = some v

/-- The page after a call of `rotateTheme` and the effect it triggers. -/
def pageStep (p : Page) : Page := (rotateAndReact p).1

/-- A store with no item, readable and writable. -/
def emptyStore : Storage := { items := [], readThrows := false, writeThrows := false }

/-- A store with no item whose writes raise. -/
def readOnlyStore : Storage := { items := [], readThrows := false, writeThrows := true }

/-- The hook before its first effect, with nothing cached and nothing appended. -/
def freshScripts : ScriptState :=
  { scriptCache := [], body := [], isReady := false, calls := [], created := 0 }

/-! ## Lemmas -/

theorem lookup_setProp_self {α : Type} (o : JSObject α) (k : String) (v : α) :
    (setProp o k v).lookup k = some v := by
  induction o with
  | nil => simp [setProp, List.lookup]
  | cons hd tl ih =>
    obtain ⟨k0, v0⟩ := hd
    by_cases h : k0 = k
    · simp [setProp, h, List.lookup]
    · have h2 : (k == k0) = false := by simpa using fun e => h e.symm
      simp [setProp, h, List.lookup, h2, ih]

theorem lookup_setProp_of_lookup {α : Type} (o : JSObject α) (k k2 : String) (v : α)
    (h : o.lookup k2 = some v) : (setProp o k v).lookup k2 = some v := by
  induction o with
  | nil => simp [List.lookup] at h
  | cons hd tl ih =>
    obtain ⟨k0, v0⟩ := hd
    by_cases hk : k0 = k
    · subst hk
      by_cases h2 : k2 = k0
      · simp [setProp, List.lookup, h2]
      · have h3 : (k2 == k0) = false := by simpa using h2
        simp only [List.lookup, h3] at h
        simp [setProp, List.lookup, h3, h]
    · by_cases h2 : k2 = k0
      · have h3 : (k2 == k0) = true := by simpa using h2
        simp only [List.lookup, h3] at h
        simp [setProp, hk, List.lookup, h3, h]
      · have h3 : (k2 == k0) = false := by simpa using h2
        simp only [List.lookup, h3] at h
        simp [setProp, hk, List.lookup, h3, ih h]

theorem getInitialTheme_variant (st : Storage) :
    getInitialTheme st = "light" ∨ getInitialTheme st = "dark" := by
  unfold getInitialTheme
  split
  · exact Or.inl rfl
  · exact Or.inl rfl
  · rename_i themeName _
    split
    · exact Or.inl rfl
    · split
      · rename_i h
        have : themeName = "dark" ∨ themeName = "light" := by
          simpa [NEXT_THEME, List.contains] using h
        exact this.symm
      · exact Or.inl rfl

theorem rotateTheme_variant (t : JSVal) (h : t = .str "light" ∨ t = .str "dark") :
    rotateTheme t = .str "light" ∨ rotateTheme t = .str "dark" := by
  rcases h with h | h <;> subst h
  · exact Or.inr (by decide)
  · exact Or.inl (by decide)

theorem singleHop_of_check (vars : JSObject JSVal) (h : singleHopCheck vars = true) :
    SingleHop vars := by
  intro kv hkv s hs x hx
  have hc := List.all_eq_true.mp h kv hkv
  simp only [hs, hx] at hc
  split at hc
  · rename_i lit hl
    exact ⟨lit, hl, by simpa using hc⟩
  · simp at hc

theorem getCSSVars_light :
    getCSSVars (.str "light") = .ok (removeWhitespace (makeCSSVarsString LIGHT_VARS)) := by
  rfl

theorem getCSSVars_dark :
    getCSSVars (.str "dark") = .ok (removeWhitespace (makeCSSVarsString DARK_VARS)) := by
  rfl

theorem themeEffect_theme (p : Page) : (themeEffect p).1.theme = p.theme := by
  unfold themeEffect
  split
  · rfl
  · simp only
    split <;> rfl

theorem rotateAndReact_theme (p : Page) : (rotateAndReact p).1.theme = rotateTheme p.theme := by
  unfold rotateAndReact
  simp only
  split
  · rfl
  · rw [themeEffect_theme]

theorem themeEffect_synced (p : Page) (v : String) (hv : v = "light" ∨ v = "dark")
    (ht : p.theme = .str v) (hw : p.localStorage.writeThrows = false) :
    (themeEffect p).2 = none ∧ Synced (themeEffect p).1 v := by
  have hcss : ∃ css, getCSSVars (.str v) = .ok css := by
    rcases hv with h | h <;> subst h
    · exact ⟨_, getCSSVars_light⟩
    · exact ⟨_, getCSSVars_dark⟩
  obtain ⟨css, hcss⟩ := hcss
  unfold themeEffect
  rw [ht, hcss]
  simp only [Storage.setItem, hw, JSVal.toJSString, Bool.false_eq_true, if_false]
  exact ⟨trivial, rfl, rfl, ⟨css, hcss, rfl⟩, lookup_setProp_self _ _ _⟩

theorem getProp_loaded_iff (cache : JSObject String) (url : String) :
    getProp cache url = .str "LOADED" ↔ cache.lookup url = some "LOADED" := by
  unfold getProp
  split
  · rename_i v h
    rw [h]
    simp
  · rename_i h
    rw [h]
    split <;> simp

theorem scriptStep_keeps_loaded (url : String) (s : ScriptState) (e : ScriptEvent)
    (h : s.scriptCache.lookup url = some "LOADED") :
    (scriptStep s e).scriptCache.lookup url = some "LOADED" := by
  cases e with
  | mount => exact h
  | effect u =>
    simp only [scriptStep, useScriptEffect]
    split <;> exact h
  | load script =>
    simp only [scriptStep, scriptOnLoad, assignProp]
    split
    · exact h
    · exact lookup_setProp_of_lookup _ _ _ _ h
  | error script => exact h
  | cleanup script => exact h

theorem scriptRun_keeps_loaded (url : String) (events : List ScriptEvent) (s : ScriptState)
    (h : s.scriptCache.lookup url = some "LOADED") :
    (scriptRun s events).scriptCache.lookup url = some "LOADED" := by
  induction events generalizing s with
  | nil => exact h
  | cons e es ih => exact ih _ (scriptStep_keeps_loaded url s e h)

theorem removeWhitespace_append (a b : String) :
    removeWhitespace (a ++ b) = removeWhitespace a ++ removeWhitespace b := by
  apply String.ext
  simp [removeWhitespace, String.data_append, List.filter_append]

theorem serializePairs_acc (render : JSVal → String) (obj : JSObject JSVal) (acc : String) :
    obj.foldl (fun acc kv => acc ++ (kv.1 ++ ":" ++ render kv.2 ++ ";")) acc
      = acc ++ serializePairs render obj := by
  induction obj generalizing acc with
  | nil => simp [serializePairs]
  | cons kv rest ih =>
    simp only [serializePairs, List.foldl_cons]
    rw [ih, ih ("" ++ _), String.empty_append, String.append_assoc]

theorem serializePairs_cons (render : JSVal → String) (kv : String × JSVal)
    (rest : JSObject JSVal) :
    serializePairs render (kv :: rest)
      = (kv.1 ++ ":" ++ render kv.2 ++ ";") ++ serializePairs render rest := by
  simp only [serializePairs, List.foldl_cons]
  rw [serializePairs_acc, String.empty_append]
  rfl

theorem serializePairs_append (render : JSVal → String) (l1 l2 : JSObject JSVal) :
    serializePairs render (l1 ++ l2) = serializePairs render l1 ++ serializePairs render l2 := by
  simp only [serializePairs, List.foldl_append]
  rw [serializePairs_acc]
  rfl

theorem mem_serializePairs (render : JSVal → String) (obj : JSObject JSVal)
    (kv : String × JSVal) (c : Char) (hkv : kv ∈ obj) (hc : c ∈ (render kv.2).data) :
    c ∈ (serializePairs render obj).data := by
  induction obj with
  | nil => simp at hkv
  | cons hd rest ih =>
    rw [serializePairs_cons]
    simp only [String.data_append, List.mem_append]
    rcases List.mem_cons.mp hkv with h | h
    · subst h
      exact Or.inl (Or.inl (Or.inr hc))
    · exact Or.inr (ih h)

theorem stripped_pairs (obj : JSObject JSVal) (h : ∀ kv ∈ obj, removeWhitespace kv.1 = kv.1) :
    removeWhitespace (makeCSSVarsString obj)
      = serializePairs (fun v => removeWhitespace v.toJSString) obj := by
  change removeWhitespace (serializePairs JSVal.toJSString obj) = _
  induction obj with
  | nil => rfl
  | cons kv rest ih =>
    rw [serializePairs_cons, serializePairs_cons, removeWhitespace_append,
      ih (fun x hx => h x (List.mem_cons_of_mem _ hx)), removeWhitespace_append,
      removeWhitespace_append, removeWhitespace_append, h kv (List.mem_cons_self _ _)]
    rfl

theorem light_names_no_whitespace : ∀ kv ∈ LIGHT_VARS, removeWhitespace kv.1 = kv.1 := by
  decide

theorem dark_names_no_whitespace : ∀ kv ∈ DARK_VARS, removeWhitespace kv.1 = kv.1 := by
  decide

theorem removeWhitespace_no_whitespace (s : String) (c : Char)
    (h : c ∈ (removeWhitespace s).data) : isJSWhitespace c = false := by
  simpa [removeWhitespace] using (List.mem_filter.mp h).2

theorem dark_vars_split :
    DARK_VARS = DARK_VARS.take 7 ++ ("--colors-accentExtraLight", .undefined)
      :: DARK_VARS.drop 8 := by
  decide

/-! ## Initial theme -/

/-- C1: `getInitialTheme` is total (a raised read is caught, so it returns a string for every
state of the store). A store whose read raises gives `light`; otherwise the result is
decided by the value under `kyleshevlin:theme`: absent gives `light`, `dark` gives `dark`,
and every other string (the empty string, `light`, `purple`, ...) gives `light`. -/
theorem getInitialTheme_contract :
    (∀ items w, getInitialTheme ⟨items, true, w⟩ = "light") ∧
    (∀ st : Storage, getInitialTheme st =
      match st.getItem THEME_STORAGE_KEY with
      | .error _ => "light"
      | .ok none => "light"
      | .ok (some s) => if s = "dark" then "dark" else "light") ∧
    (∀ w, getInitialTheme ⟨[], false, w⟩ = "light") ∧
    (∀ w, getInitialTheme ⟨[("kyleshevlin:theme", "")], false, w⟩ = "light") ∧
    (∀ w, getInitialTheme ⟨[("kyleshevlin:theme", "dark")], false, w⟩ = "dark") ∧
    (∀ w, getInitialTheme ⟨[("kyleshevlin:theme", "light")], false, w⟩ = "light") ∧
    (∀ w, getInitialTheme ⟨[("kyleshevlin:theme", "purple")], false, w⟩ = "light") := by
  refine ⟨fun _ _ => rfl, ?_, fun _ => rfl, fun _ => rfl, fun _ => rfl, fun _ => rfl,
    fun _ => rfl⟩
  intro st
  unfold getInitialTheme
  split
  · rfl
  · rfl
  · rename_i themeName h
    simp only [DEFAULT_THEME]
    by_cases h1 : themeName = ""
    · subst h1
      decide
    · by_cases h2 : themeName = "dark"
      · subst h2
        decide
      · by_cases h3 : themeName = "light"
        · subst h3
          decide
        · simp [h1, h2, h3, NEXT_THEME, List.contains]

/-! ## Rotation -/

/-- C2: the transition `rotateTheme` applies through `NEXT_THEME` sends `light` to `dark` and
`dark` to `light`, and applying it twice returns each of the two variants, which are the
keys of `NEXT_THEME`. -/
theorem rotateTheme_involution :
    NEXT_THEME.map Prod.fst = ["dark", "light"] ∧
    rotateTheme (.str "light") = .str "dark" ∧
    rotateTheme (.str "dark") = .str "light" ∧
    rotateTheme (rotateTheme (.str "light")) = .str "light" ∧
    rotateTheme (rotateTheme (.str "dark")) = .str "dark" ∧
    (∀ v ∈ NEXT_THEME.map Prod.fst, rotateTheme (rotateTheme (.str v)) = .str v) := by
  decide

/-- C3: for every store (whatever it holds, and also when reading it raises), every root
style and class, and every number of `rotateTheme` calls after the first render, the
active theme is the string `light` or the string `dark`. -/
theorem theme_always_variant (style cls : Option String) (st : Storage) (n : Nat) :
    (pageStep^[n] (mountAndReact style cls st).1).theme = .str "light" ∨
    (pageStep^[n] (mountAndReact style cls st).1).theme = .str "dark" := by
  induction n with
  | zero =>
    simp only [Function.iterate_zero, id_eq, mountAndReact, themeEffect_theme, mount]
    rcases getInitialTheme_variant st with h | h <;> rw [h]
    · exact Or.inl rfl
    · exact Or.inr rfl
  | succ k ih =>
    rw [Function.iterate_succ_apply']
    unfold pageStep
    rw [rotateAndReact_theme]
    exact rotateTheme_variant _ ih

/-! ## The reaction to a state change -/

/-- C4: with a store whose write succeeds, the first render followed by its effect leaves
the page in agreement with the initial variant, and from any page whose theme is `light` or
`dark` a call of `rotateTheme` followed by its effect raises nothing and leaves the page in
agreement with the other variant: root class the name of the variant, root style
`getCSSVars` of it (whatever the style was), store holding it under `kyleshevlin:theme`.
From the empty store the first render gives `light`, one rotation gives `dark` in state,
class and store, and a second gives `light` in state, class and store. -/
theorem reaction_syncs_page (style cls : Option String) (st : Storage) (p : Page)
    (hst : st.writeThrows = false) (hp : p.localStorage.writeThrows = false)
    (hv : p.theme = .str "light" ∨ p.theme = .str "dark") :
    ((mountAndReact style cls st).2 = none ∧
      Synced (mountAndReact style cls st).1 (getInitialTheme st)) ∧
    (∃ v, rotateTheme p.theme = .str v ∧ p.theme ≠ .str v ∧ (v = "light" ∨ v = "dark") ∧
      (rotateAndReact p).2 = none ∧ Synced (rotateAndReact p).1 v) ∧
    ((mountAndReact none none emptyStore).1.theme = .str "light" ∧
      (pageStep (mountAndReact none none emptyStore).1).theme = .str "dark" ∧
      (pageStep (mountAndReact none none emptyStore).1).rootClass = some "dark" ∧
      (pageStep (mountAndReact none none emptyStore).1).localStorage.items
        = [("kyleshevlin:theme", "dark")] ∧
      (pageStep (pageStep (mountAndReact none none emptyStore).1)).theme = .str "light" ∧
      (pageStep (pageStep (mountAndReact none none emptyStore).1)).rootClass = some "light" ∧
      (pageStep (pageStep (mountAndReact none none emptyStore).1)).localStorage.items
        = [("kyleshevlin:theme", "light")]) := by
  refine ⟨?_, ?_, by decide⟩
  · exact themeEffect_synced (mount style cls st) _ (getInitialTheme_variant st) rfl hst
  · have key : ∀ v w : String, p.theme = .str v → rotateTheme (.str v) = .str w → v ≠ w →
        (w = "light" ∨ w = "dark") →
        ∃ v, rotateTheme p.theme = .str v ∧ p.theme ≠ .str v ∧ (v = "light" ∨ v = "dark") ∧
          (rotateAndReact p).2 = none ∧ Synced (rotateAndReact p).1 v := by
      intro v w h1 h2 h3 h4
      have hne : JSVal.str w ≠ p.theme := by
        rw [h1]
        intro e
        exact h3 (JSVal.str.inj e).symm
      refine ⟨w, by rw [h1, h2], fun e => hne e.symm, h4, ?_⟩
      unfold rotateAndReact
      simp only [h1, h2]
      rw [if_neg (by rw [← h1]; exact hne)]
      exact themeEffect_synced _ w h4 rfl hp
    rcases hv with h | h
    · exact key "light" "dark" h (by decide) (by decide) (Or.inr rfl)
    · exact key "dark" "light" h (by decide) (by decide) (Or.inl rfl)

/-- Witness of C4: a writable store holding `dark`, and the page of the first render over
the empty store. -/
theorem reaction_syncs_page_witness :
    (⟨[("kyleshevlin:theme", "dark")], false, false⟩ : Storage).writeThrows = false ∧
    (mount none none emptyStore).localStorage.writeThrows = false ∧
    (mount none none emptyStore).theme = .str "light" ∧
    (mountAndReact none none ⟨[("kyleshevlin:theme", "dark")], false, false⟩).2 = none ∧
    (∃ v, rotateTheme (mount none none emptyStore).theme = .str v ∧
      (rotateAndReact (mount none none emptyStore)).2 = none ∧
      Synced (rotateAndReact (mount none none emptyStore)).1 v) :=
  have h := reaction_syncs_page none none ⟨[("kyleshevlin:theme", "dark")], false, false⟩
    (mount none none emptyStore) rfl rfl (Or.inl rfl)
  ⟨rfl, rfl, rfl, h.1.1, h.2.1.elim fun v hv => ⟨v, hv.1, hv.2.2.2.1, hv.2.2.2.2⟩⟩

/-- C5, evaluated on a store whose write raises: the effect after the first render and the
effect after a rotation both end with the error of `setItem` raised out of the effect
(nothing catches it), with the root style and class of the new variant in place, the state
equal to that variant and the store unchanged. -/
theorem effect_raises_on_failed_write :
    (mountAndReact none none readOnlyStore).2 = some .storageError ∧
    (mountAndReact none none readOnlyStore).1.theme = .str "light" ∧
    (mountAndReact none none readOnlyStore).1.rootClass = some "light" ∧
    (mountAndReact none none readOnlyStore).1.rootStyle.map Except.ok
      = some (getCSSVars (.str "light")) ∧
    (mountAndReact none none readOnlyStore).1.localStorage = readOnlyStore ∧
    (rotateAndReact (mountAndReact none none readOnlyStore).1).2 = some .storageError ∧
    (rotateAndReact (mountAndReact none none readOnlyStore).1).1.theme = .str "dark" ∧
    (rotateAndReact (mountAndReact none none readOnlyStore).1).1.rootClass = some "dark" ∧
    (rotateAndReact (mountAndReact none none readOnlyStore).1).1.rootStyle.map Except.ok
      = some (getCSSVars (.str "dark")) ∧
    (rotateAndReact (mountAndReact none none readOnlyStore).1).1.localStorage
      = readOnlyStore := by
  refine ⟨?_, ?_, ?_, ?_, ?_, ?_, ?_, ?_, ?_, ?_⟩ <;> rfl

/-! ## The derived variable sets -/

/-- C6, evaluated on the dark variant: `DARK_COLORS` has no `accentExtraLight`, so the entry
`--colors-accentExtraLight` of `DARK_VARS` is `undefined` (it is the only such entry, no
patch replaces it) and `getCSSVars('dark')` spells it `undefined`; every entry of
`LIGHT_VARS` is a string. -/
theorem dark_accentExtraLight_undefined :
    DARK_COLORS.lookup "accentExtraLight" = none ∧
    getProp DARK_COLORS "accentExtraLight" = .undefined ∧
    DARK_VARS.lookup "--colors-accentExtraLight" = some .undefined ∧
    "--colors-accentExtraLight" ∉ DARK_PATCH.map Prod.fst ∧
    DARK_VARS.filter (fun kv => decide (kv.2 = .undefined))
      = [("--colors-accentExtraLight", .undefined)] ∧
    (∀ kv ∈ DARK_VARS, kv.1 ≠ "--colors-accentExtraLight" →
      kv.2 = .str kv.2.toJSString) ∧
    (∀ kv ∈ LIGHT_VARS, kv.2 = .str kv.2.toJSString) ∧
    (∃ before after, getCSSVars (.str "dark")
      = .ok (before ++ "--colors-accentExtraLight:undefined;" ++ after)) := by
  refine ⟨by decide, by decide, by decide, by decide, by decide, by decide, by decide, ?_⟩
  refine ⟨serializePairs (fun v => removeWhitespace v.toJSString) (DARK_VARS.take 7),
    serializePairs (fun v => removeWhitespace v.toJSString) (DARK_VARS.drop 8), ?_⟩
  rw [getCSSVars_dark, stripped_pairs _ dark_names_no_whitespace]
  have hpiece : ("--colors-accentExtraLight" ++ ":"
      ++ removeWhitespace JSVal.undefined.toJSString ++ ";" : String)
      = "--colors-accentExtraLight:undefined;" := by decide
  conv_lhs => rw [dark_vars_split]
  rw [serializePairs_append, serializePairs_cons]
  dsimp only
  rw [hpiece, ← String.append_assoc]

/-- C7: every name of `LIGHT_VARS` is a name of `DARK_VARS` (the two have the same names in
the same order), the same holds of the strings `getCSSVars` is computed from, and every
entry of `DARK_VARS` whose name the dark patch does not write has the value
`makeDefaultCSSVars(DARK_COLORS)` gives that name. -/
theorem dark_extends_light :
    (∀ kv ∈ LIGHT_VARS, kv.1 ∈ DARK_VARS.map Prod.fst) ∧
    LIGHT_VARS.map Prod.fst = DARK_VARS.map Prod.fst ∧
    (THEME_TO_CSS_VARS.lookup "light" = some LIGHT_VARS ∧
      THEME_TO_CSS_VARS.lookup "dark" = some DARK_VARS) ∧
    (∀ kv ∈ DARK_VARS, kv.1 ∉ DARK_PATCH.map Prod.fst →
      (makeDefaultCSSVars DARK_COLORS).lookup kv.1 = some kv.2) := by
  refine ⟨by decide, by decide, ⟨rfl, rfl⟩, by decide⟩

/-- C8: in `LIGHT_VARS` and in `DARK_VARS` every value of the form `var(--X)` names an entry
of the same table whose value is a string that is not itself of that form.
`--colors-text-on-accent` is `var(--colors-background)` in light and `var(--colors-text)`
in dark, and each of the two targets is a literal colour. -/
theorem references_single_hop :
    SingleHop LIGHT_VARS ∧ SingleHop DARK_VARS ∧
    (LIGHT_VARS.lookup "--colors-text-on-accent" = some (.str "var(--colors-background)") ∧
      refTarget "var(--colors-background)" = some "--colors-background" ∧
      LIGHT_VARS.lookup "--colors-background" = some (.str "hsl(0, 0%, 100%)") ∧
      refTarget "hsl(0, 0%, 100%)" = none) ∧
    (DARK_VARS.lookup "--colors-text-on-accent" = some (.str "var(--colors-text)") ∧
      refTarget "var(--colors-text)" = some "--colors-text" ∧
      DARK_VARS.lookup "--colors-text" = some (.str "hsl(0, 0%, 100%)")) := by
  refine ⟨singleHop_of_check _ (by decide), singleHop_of_check _ (by decide), by decide,
    by decide⟩

/-! ## Serialization -/

/-- C9 as stated fails on the light variant: `getCSSVars('light')` is not the concatenation
of `name:value;` over the entries of `LIGHT_VARS` with the values as the table holds them
(the table has `hsl(0, 0%, 100%)`, the result has `hsl(0,0%,100%)`). -/
theorem getCSSVars_not_verbatim :
    makeCSSVarsString LIGHT_VARS = serializePairs JSVal.toJSString LIGHT_VARS ∧
    getCSSVars (.str "light") ≠ .ok (serializePairs JSVal.toJSString LIGHT_VARS) := by
  refine ⟨rfl, ?_⟩
  rw [getCSSVars_light]
  intro h
  have hs : (' ' : Char) ∈ (serializePairs JSVal.toJSString LIGHT_VARS).data :=
    mem_serializePairs _ _ ("--colors-background", .str "hsl(0, 0%, 100%)") _
      (by decide) (by decide)
  rw [← Except.ok.inj h] at hs
  exact absurd (removeWhitespace_no_whitespace _ _ hs) (by decide)

/-- C9 amended: for `light`, for `dark` and for the omitted argument (which means `light`)
`getCSSVars` returns the concatenation, in entry order and with nothing between pairs, of
`name:value;` where the value is the table value with every whitespace character removed;
the result holds no whitespace character at all. -/
theorem getCSSVars_serializes :
    getCSSVars (.str "light")
      = .ok (serializePairs (fun v => removeWhitespace v.toJSString) LIGHT_VARS) ∧
    getCSSVars (.str "dark")
      = .ok (serializePairs (fun v => removeWhitespace v.toJSString) DARK_VARS) ∧
    getCSSVars .undefined = getCSSVars (.str "light") ∧
    (∀ c ∈ (removeWhitespace (makeCSSVarsString LIGHT_VARS)).data, isJSWhitespace c = false) ∧
    (∀ c ∈ (removeWhitespace (makeCSSVarsString DARK_VARS)).data, isJSWhitespace c = false) := by
  refine ⟨?_, ?_, rfl, ?_, ?_⟩
  · rw [getCSSVars_light, stripped_pairs _ light_names_no_whitespace]
  · rw [getCSSVars_dark, stripped_pairs _ dark_names_no_whitespace]
  · exact fun c hc => removeWhitespace_no_whitespace _ c hc
  · exact fun c hc => removeWhitespace_no_whitespace _ c hc

/-! ## The script loader -/

/-- C10: for a url other than the accessor name `__proto__`. (1) An effect run appends a
script element exactly when `scriptCache[url]` is not `LOADED`: then it appends one, invokes
`onCreate` and leaves `isReady` as it was; otherwise it appends nothing, invokes nothing
and sets `isReady`. (2) After the load handler of a script for the url has run, whatever
mounts (each with `isReady` false again), effect runs, loads, failures and cleanups follow,
an effect run for the url appends nothing, returns no cleanup, invokes no callback and
leaves `isReady` true, also when it was false before the run. (3) The failure handler
invokes `onError` and nothing else and leaves `scriptCache`, `isReady` and the body as they
were, so that after a first effect run and a failure the url is still not cached and
`isReady` is still false. (4) Before any load, two effect runs append two elements. -/
theorem useScript_step_contract (url : String) (hurl : url ≠ "__proto__") (s : ScriptState)
    (i : Nat) (events : List ScriptEvent) :
    ((useScriptEffect url s).1.body
        = (if getProp s.scriptCache url = .str "LOADED" then s.body
          else s.body ++ [⟨s.created, url⟩]) ∧
      (useScriptEffect url s).1.isReady
        = (if getProp s.scriptCache url = .str "LOADED" then true else s.isReady) ∧
      (useScriptEffect url s).1.calls
        = (if getProp s.scriptCache url = .str "LOADED" then s.calls
          else s.calls ++ [.onCreate]) ∧
      (useScriptEffect url s).1.scriptCache = s.scriptCache) ∧
    ((useScriptEffect url (scriptRun (scriptOnLoad ⟨i, url⟩ s) events)).1.body
        = (scriptRun (scriptOnLoad ⟨i, url⟩ s) events).body ∧
      (useScriptEffect url (scriptRun (scriptOnLoad ⟨i, url⟩ s) events)).1.isReady = true ∧
      (useScriptEffect url (hookMount (scriptRun (scriptOnLoad ⟨i, url⟩ s) events))).1.isReady
        = true ∧
      (useScriptEffect url (hookMount (scriptRun (scriptOnLoad ⟨i, url⟩ s) events))).1.body
        = (scriptRun (scriptOnLoad ⟨i, url⟩ s) events).body ∧
      (useScriptEffect url (scriptRun (scriptOnLoad ⟨i, url⟩ s) events)).1.calls
        = (scriptRun (scriptOnLoad ⟨i, url⟩ s) events).calls ∧
      (useScriptEffect url (scriptRun (scriptOnLoad ⟨i, url⟩ s) events)).2 = none) ∧
    ((scriptOnError ⟨i, url⟩ s).calls = s.calls ++ [.onError] ∧
      (scriptOnError ⟨i, url⟩ s).scriptCache = s.scriptCache ∧
      (scriptOnError ⟨i, url⟩ s).isReady = s.isReady ∧
      (scriptOnError ⟨i, url⟩ s).body = s.body) ∧
    ((scriptRun freshScripts [.effect url, .error ⟨0, url⟩]).scriptCache.lookup url = none ∧
      (scriptRun freshScripts [.effect url, .error ⟨0, url⟩]).isReady = false ∧
      (scriptRun freshScripts [.effect url, .error ⟨0, url⟩]).body = [⟨0, url⟩] ∧
      (scriptRun freshScripts [.effect url, .error ⟨0, url⟩]).calls
        = [.onCreate, .onError]) ∧
    (scriptRun freshScripts [.effect url, .effect url]).body = [⟨0, url⟩, ⟨1, url⟩] := by
  have hc : getProp freshScripts.scriptCache url ≠ .str "LOADED" := by
    intro h
    have := (getProp_loaded_iff _ url).mp h
    simp [freshScripts, List.lookup] at this
  refine ⟨?_, ?_, ⟨rfl, rfl, rfl, rfl⟩, ?_, ?_⟩
  · unfold useScriptEffect
    split
    · exact ⟨rfl, rfl, rfl, rfl⟩
    · exact ⟨rfl, rfl, rfl, rfl⟩
  · have h0 : (scriptOnLoad ⟨i, url⟩ s).scriptCache.lookup url = some "LOADED" := by
      simp only [scriptOnLoad, assignProp, if_neg hurl]
      exact lookup_setProp_self _ _ _
    have h1 := scriptRun_keeps_loaded url events _ h0
    have h2 := (getProp_loaded_iff _ url).mpr h1
    have h3 : getProp (hookMount (scriptRun (scriptOnLoad ⟨i, url⟩ s) events)).scriptCache url
        = .str "LOADED" := h2
    refine ⟨?_, ?_, ?_, ?_, ?_, ?_⟩
    · unfold useScriptEffect
      rw [if_pos h2]
    · unfold useScriptEffect
      rw [if_pos h2]
    · unfold useScriptEffect
      rw [if_pos h3]
    · unfold useScriptEffect
      rw [if_pos h3]
      rfl
    · unfold useScriptEffect
      rw [if_pos h2]
    · unfold useScriptEffect
      rw [if_pos h2]
  · simp only [scriptRun, List.foldl, scriptStep, useScriptEffect, if_neg hc, scriptOnError]
    exact ⟨rfl, rfl, rfl, rfl⟩
  · simp only [scriptRun, List.foldl, scriptStep, useScriptEffect, if_neg hc]
    rfl

/-- Witness of C10: the d3 bundle, from the fresh hook: its script loads, the effect is
cleaned up and the component mounts again with `isReady` false; the next effect run
appends nothing and sets `isReady`. A failed first load leaves `isReady` false. -/
theorem useScript_step_contract_witness :
    d3Url ≠ "__proto__" ∧
    (hookMount (scriptRun (scriptOnLoad ⟨0, d3Url⟩ freshScripts)
        [.cleanup ⟨0, d3Url⟩, .mount])).isReady = false ∧
    (useScriptEffect d3Url (hookMount (scriptRun (scriptOnLoad ⟨0, d3Url⟩ freshScripts)
        [.cleanup ⟨0, d3Url⟩, .mount]))).1.isReady = true ∧
    (useScriptEffect d3Url (scriptRun (scriptOnLoad ⟨0, d3Url⟩ freshScripts)
        [.cleanup ⟨0, d3Url⟩, .mount])).2 = none ∧
    (scriptRun freshScripts [.effect d3Url, .error ⟨0, d3Url⟩]).isReady = false :=
  have h := useScript_step_contract d3Url (by decide) freshScripts 0
    [.cleanup ⟨0, d3Url⟩, .mount]
  ⟨by decide, rfl, h.2.1.2.2.1, h.2.1.2.2.2.2.2, h.2.2.2.1.2.1⟩

end Blog
